import Mathlib

/-!
Verification development for the `tmb-pipeline` repository (`src/main.py`,
`src/aktuell.py`).  The two Python files implement the same pipeline; they
differ only in the missing-value sentinel ("Empty Cell" vs "Leere Zelle"),
log output and result column names.  The embedding below follows `main.py`,
line references are to `src/main.py`.

The embedding is shallow: Python strings become `String`, lists become
`List`, the filesystem visible to `find_images_for_object` becomes an
association list from directory path to directory entries, the HTTP
responses seen by `generate_catalog_text` become an oracle `Nat → Resp`
(one response per attempt), reading an image file (`encode_image`) becomes
an oracle `String → Except String String` whose `error` case stands for a
raised exception, and `time.sleep` calls are recorded as a list of waited
durations.
-/

/-- Characters treated as whitespace by the embedding of Python's
`str.strip` and `str.split()`. -/
def pyWs (c : Char) : Bool := c.isWhitespace

/-- Embedding of Python's `str.strip()`: drop whitespace from both ends. -/
def pyStrip (s : String) : String :=
  String.mk (((s.data.dropWhile pyWs).reverse.dropWhile pyWs).reverse)

/-- Embedding of Python's `str.lower()` (character-wise lowering; the
pipeline only ever compares the result against the ASCII token "nan"). -/
def pyToLower (s : String) : String := String.mk (s.data.map Char.toLower)

/-- Embedding of Python's `str.split(sep)` for a one-character separator:
split at every occurrence, keeping empty pieces (`"".split("/") == [""]`). -/
def splitChar (c : Char) : List Char → List (List Char)
  | [] => [[]]
  | x :: xs =>
    if x = c then [] :: splitChar c xs
    else
      match splitChar c xs with
      | [] => [[x]]
      | h :: t => (x :: h) :: t

/-- Embedding of `os.path.basename` for slash-separated paths: the part
after the last slash. -/
def basename (p : String) : String :=
  String.mk ((p.data.reverse.takeWhile (fun c => c != '/')).reverse)

/-- Boolean lexicographic order on character lists, comparing code points —
the order Python's `sorted` uses on strings. -/
def listLeB : List Char → List Char → Bool
  | [], _ => true
  | _ :: _, [] => false
  | a :: as, b :: bs =>
    if a.toNat < b.toNat then true
    else if b.toNat < a.toNat then false
    else listLeB as bs

/-- Boolean string order used by the embedding of Python's `sorted`. -/
def strLe (a b : String) : Bool := listLeB a.data b.data

/-- Insert a string into an already sorted list of strings. -/
def insertSorted (x : String) : List String → List String
  | [] => [x]
  | y :: ys => if strLe x y then x :: y :: ys else y :: insertSorted x ys

/-- Embedding of Python's `sorted` on lists of strings (insertion sort with
the code-point lexicographic order). -/
def sortStrings (l : List String) : List String := l.foldr insertSorted []

/-- Helper for `dedupFirst`: drop values already seen. -/
def dedupFirstAux (seen : List String) : List String → List String
  | [] => []
  | x :: xs =>
    if seen.contains x then dedupFirstAux seen xs
    else x :: dedupFirstAux (x :: seen) xs

/-- Distinct values of a list in order of first appearance. -/
def dedupFirst (l : List String) : List String := dedupFirstAux [] l

/-- Raw spreadsheet cell values as seen by `safe_value` (main.py line 23):
absent (`None`), a value whose `str(...)` form is the given string, or a
value whose stringification raises. -/
inductive PyVal where
  | none
  | str (s : String)
  | unstringable
deriving DecidableEq

/-- Missing-value sentinel of `main.py` (aktuell.py uses "Leere Zelle"). -/
def EMPTY_CELL : String := "Empty Cell"

/-- Embedding of `safe_value` (main.py lines 23-30). -/
def safe_value : PyVal → String
  | PyVal.none => EMPTY_CELL
  | PyVal.unstringable => EMPTY_CELL
  | PyVal.str v =>
    let s := pyStrip v
    if s = "" ∨ pyToLower s = "nan" then EMPTY_CELL else s

/-- Spreadsheet row as the orchestrator sees it: the grouping-column value
(column `t1`, used as the `groupby` key) and the remaining cells, addressed
by column name. -/
structure Row where
  t1 : String
  cells : List (String × PyVal)
deriving DecidableEq

/-- Embedding of `get_val` (main.py lines 32-35): look a column up in the
row, normalizing absent columns to the sentinel. -/
def get_val (row : Row) (colname_lower : String) : String :=
  match row.cells.lookup colname_lower with
  | some v => safe_value v
  | Option.none => EMPTY_CELL

/-- Embedding of `build_list_sentences` (main.py lines 84-98): one labeled
clause per present field, in the fixed order manufacturer, material,
dimensions, year, joined with "; ". -/
def build_list_sentences (manufacturer material dimensions year : String) :
    String × String :=
  let parts_de :=
    (if manufacturer ≠ EMPTY_CELL then ["Hersteller: " ++ manufacturer] else []) ++
    (if material ≠ EMPTY_CELL then ["Material: " ++ material] else []) ++
    (if dimensions ≠ EMPTY_CELL then ["Maße: " ++ dimensions] else []) ++
    (if year ≠ EMPTY_CELL then ["Jahr: " ++ year] else [])
  let parts_en :=
    (if manufacturer ≠ EMPTY_CELL then ["Manufacturer: " ++ manufacturer] else []) ++
    (if material ≠ EMPTY_CELL then ["Material: " ++ material] else []) ++
    (if dimensions ≠ EMPTY_CELL then ["Dimensions: " ++ dimensions] else []) ++
    (if year ≠ EMPTY_CELL then ["Year: " ++ year] else [])
  (String.intercalate "; " parts_de, String.intercalate "; " parts_en)

/-- Embedding of `BASE_PROMPT_TEMPLATE.format(...)` (main.py lines 50-79 and
115-125): the template text with the nine interpolated values. -/
def base_prompt (object_id title image_list manufacturer material dimensions
    year de_list_sentence en_list_sentence : String) : String :=
  "\nYou are a museum cataloguer for the Technisches Museum Berlin.\nDescribe only what the images justify; be conservative; no speculation.\nThe input includes metadata from an Excel row.\nIf any field value equals the literal string \"Empty Cell\", treat it as missing/absent. \n\nObject ID: " ++
  object_id ++ " \nTitle: " ++ title ++ " \nImage List (local selection): " ++
  image_list ++ " \nManufacturer: " ++ manufacturer ++ " \nMaterial: " ++
  material ++ " \nDimensions: " ++ dimensions ++ " \nYear: " ++ year ++
  " \n\nUse title to choose the plain object type and function wording in Paragraph 1 if consistent with the images. \nFacts from manufacturer, material, dimensions, year are authoritative list data and must be included in Paragraph 2 as a clearly labeled sentence beginning with „Angaben laut Liste:“ (German) and “According to the list:” (English). \nCopy their values verbatim; do not rephrase. \nNever invent missing values. If a field is absent or equals \"Empty Cell\", omit it entirely from that list sentence. \nDo not state date, maker, materials, or dimensions as if they are visibly inscribed. For visible inscriptions, transcribe verbatim in quotes; use […] for illegible parts. \nBan hedging/guessing: avoid vermutlich, wahrscheinlich, wohl, offenbar, anscheinend, möglicherweise, könnte, dürfte, early/late, typical, domestic, etc. \n\nOUTPUT (exactly three parts, in this order) \nOne sentence (≤35 Wörter) suitable for a label: Objekttyp, Funktion/Zweck, sichtbares Material/Finish, datierungslos. Do not include maker/date/provenance here unless they are visibly inscribed; Excel facts remain only in the “Angaben laut Liste” sentence within the description.\n\nWrite 3 short paragraphs in German, then provide an English translation with the same constraints. The German paragraphs should have one title above the first paragraph called \"Deutsche Beschreibung\". Then provide the EN translation of the title mirroring the placement used for the German title.\nContent of the paragraph 1: Name the object type in plain words and its function/purpose (use title if it matches the images). \nContent of the paragraph 2: Strictly image-based description: form and construction (shape, handles, openings, moving parts, connectors); colours/finish; materials only if visually evident; transcribe any visible labels/marks verbatim (use […] for gaps). At the end of Paragraph 2, add ONE sentence with Excel facts using EXACT formatting, but include only the fields that exist (omit any that are \"Empty Cell\"): \nAngaben laut Liste: " ++
  de_list_sentence ++
  ". \nContent of the paragraph 3: Condition notes only (e.g., Kratzer, Korrosion, Abplatzungen, fehlende Teile). No usage scenarios or history. Then provide the EN translation mirroring the structure above. In the English version of Paragraph 2, reproduce the list sentence as: According to the list: " ++
  en_list_sentence ++ ".\n"

/-- Embedding of `build_prompt` (main.py lines 100-125). -/
def build_prompt (row : Row) (image_paths : List String) (object_id : String) :
    String :=
  let oid0 := pyStrip object_id
  let oid := if oid0 = "" then EMPTY_CELL else oid0
  let title := get_val row "t10"
  let manufacturer := get_val row "t2"
  let material := get_val row "t3"
  let dimensions := get_val row "t5"
  let year := get_val row "t14"
  let image_list :=
    if image_paths = [] then EMPTY_CELL
    else String.intercalate ", " (image_paths.map basename)
  let sentences := build_list_sentences manufacturer material dimensions year
  base_prompt oid title image_list manufacturer material dimensions year
    sentences.1 sentences.2

/-- One HTTP response as observed by the retry loop in
`generate_catalog_text` (main.py lines 149-163): a successful completion
carrying the returned text, an HTTP error status (raised by
`raise_for_status`), or a network-level failure of the request itself. -/
inductive Resp where
  | success (text : String)
  | httpError (status : Nat) (msg : String)
  | connError (msg : String)
deriving DecidableEq

/-- Observable outcome of the retry loop: the returned string, the list of
`time.sleep` durations performed, and the number of requests attempted. -/
structure GenResult where
  text : String
  waits : List Nat
  attempts : Nat
deriving DecidableEq

/-- Embedding of the `for attempt in range(3)` retry loop of
`generate_catalog_text` (main.py lines 149-163).  `resps n` is the response
the n-th request would observe (0-based); the second argument is the attempt
index, the third the number of loop iterations left. -/
def genAttempts (resps : Nat → Resp) : Nat → Nat → GenResult
  | _, 0 => ⟨"Error: Aborted after too many failed attempts", [], 0⟩
  | attempt, n + 1 =>
    match resps attempt with
    | Resp.success t => ⟨t, [], 1⟩
    | Resp.httpError status msg =>
      if status = 429 then
        let r := genAttempts resps (attempt + 1) n
        ⟨r.text, 5 * (attempt + 1) :: r.waits, r.attempts + 1⟩
      else ⟨"Error: API error: " ++ msg, [], 1⟩
    | Resp.connError msg => ⟨"Error: Connection error: " ++ msg, [], 1⟩

/-- Embedding of the image-encoding prelude of `generate_catalog_text`
(main.py lines 131-137): encode each image in order; a raised exception in
`encode_image` (modelled by `Except.error`) propagates. -/
def encodeImages (encode : String → Except String String) :
    List String → Except String (List String)
  | [] => Except.ok []
  | p :: ps =>
    match encode p with
    | Except.error e => Except.error e
    | Except.ok b =>
      match encodeImages encode ps with
      | Except.error e => Except.error e
      | Except.ok bs => Except.ok (b :: bs)

/-- Embedding of `generate_catalog_text` (main.py lines 130-163): encode the
images, then run the bounded retry loop.  `prompt_text` is carried in the
request payload; the response oracle already accounts for it.  An
`Except.error` is an exception escaping to the caller (only image encoding
can raise; the request loop catches its own exceptions). -/
def generate_catalog_text (encode : String → Except String String)
    (image_paths : List String) (prompt_text : String) (resps : Nat → Resp) :
    Except String GenResult :=
  match encodeImages encode image_paths with
  | Except.error e => Except.error e
  | Except.ok _ => Except.ok (genAttempts resps 0 3)

/-- Image-file encoder that always succeeds, standing for `encode_image` on
readable files. -/
def okEnc : String → Except String String := fun s => Except.ok s

/-- Decidable equality on `Except`, so concrete pipeline runs can be checked
by `decide`. -/
instance exceptDecEq {α β : Type} [DecidableEq α] [DecidableEq β] :
    DecidableEq (Except α β) := fun a b =>
  match a, b with
  | Except.error x, Except.error y =>
    if h : x = y then isTrue (by rw [h])
    else isFalse (fun hc => h (Except.error.inj hc))
  | Except.ok x, Except.ok y =>
    if h : x = y then isTrue (by rw [h])
    else isFalse (fun hc => h (Except.ok.inj hc))
  | Except.error _, Except.ok _ => isFalse (fun hc => Except.noConfusion hc)
  | Except.ok _, Except.error _ => isFalse (fun hc => Except.noConfusion hc)

/-- Filesystem visible to `find_images_for_object`: directory path to list
of directory entries.  A directory absent from the list does not exist. -/
abbrev FS := List (String × List String)

/-- Embedding of the year test `p.isdigit() and len(p) == 4`
(main.py line 169). -/
def isYearSeg (p : List Char) : Bool :=
  !p.isEmpty && p.all Char.isDigit && p.length == 4

/-- Embedding of the extension filter
`f.lower().endswith((".jpg", ".jpeg", ".png"))` (main.py line 178). -/
def isImageExt (f : String) : Bool :=
  let l := (pyToLower f).data
  ".jpg".data.isSuffixOf l || ".jpeg".data.isSuffixOf l ||
    ".png".data.isSuffixOf l

/-- Embedding of `object_id.replace("/", "-").split()[0]` (main.py
line 177): replace slashes by hyphens, then take the first
whitespace-delimited token (the filename stem the locator matches on). -/
def idStem (object_id : String) : String :=
  let replaced := object_id.data.map (fun c => if c = '/' then '-' else c)
  String.mk ((replaced.dropWhile pyWs).takeWhile (fun c => !pyWs c))

/-- Embedding of `find_images_for_object` (main.py lines 168-181). -/
def find_images_for_object (fs : FS) (base_folder object_id : String)
    (max_images : Nat) : List String :=
  match (splitChar '/' object_id.data).find? isYearSeg with
  | Option.none => []
  | some year =>
    let folder := base_folder ++ "/" ++ String.mk year
    match List.lookup folder fs with
    | Option.none => []
    | some entries =>
      let stem := idStem object_id
      let candidates := entries.filter isImageExt
      let matched :=
        sortStrings (candidates.filter (fun f => stem.data.isPrefixOf f.data))
      (matched.take max_images).map (fun f => folder ++ "/" ++ f)

/-- Column-name normalization `str(c).strip().lower()` (main.py lines 188
and 217). -/
def normName (s : String) : String := pyToLower (pyStrip s)

/-- Output row of the orchestrator (main.py lines 207-212 and 222-227):
source spreadsheet name, object identifier, comma-joined image basenames,
and the generated description or an error marker. -/
structure ResultRecord where
  source : String
  objectId : String
  images : String
  description : String
deriving DecidableEq

/-- Embedding of the row-range restriction
`df.iloc[row_start_1_based - 1 : row_end_1_based]` (main.py line 189). -/
def sliceRows (rows : List Row) (row_start_1_based row_end_1_based : Nat) :
    List Row :=
  (rows.drop (row_start_1_based - 1)).take
    (row_end_1_based - (row_start_1_based - 1))

/-- Modelled from the spec: "group remaining rows by the grouping column's
value, preserving first-seen order" — the distinct grouping keys in order of
first appearance.  Stated only to compare the spec's claimed group order
with the code's; `process_excel` below does not use it. -/
def firstSeenKeys (rows : List Row) : List String :=
  dedupFirst (rows.map Row.t1)

/-- Group keys in the order `for object_id, group in df.groupby("t1")`
iterates them (main.py lines 194 and 198): pandas `groupby` with the default
`sort=True` yields the distinct keys in ascending order. -/
def groupKeys (rows : List Row) : List String :=
  sortStrings (dedupFirst (rows.map Row.t1))

/-- Embedding of the per-object body of the orchestrator loop (main.py
lines 202-239), including the `except Exception` handler converting a raised
exception into an error-tagged Result Record.  `sliced` is the sliced row
range (the group of a key is its rows in `sliced`, whose first row supplies
the metadata); `api key` is the response oracle for this object's request. -/
def processOne (excel_path : String) (fs : FS) (base_folder : String)
    (encode : String → Except String String) (api : String → Nat → Resp)
    (sliced : List Row) (key : String) : ResultRecord :=
  let object_id := pyStrip key
  let image_paths := find_images_for_object fs base_folder object_id 3
  if image_paths = [] then
    ⟨basename excel_path, object_id, "", "Error: No valid image found"⟩
  else
    match sliced.find? (fun r => r.t1 == key) with
    | Option.none =>
      ⟨basename excel_path, object_id, "", "Error: Processing error: empty group"⟩
    | some first_row =>
      let row :=
        { first_row with
            cells := first_row.cells.map (fun c => (normName c.1, c.2)) }
      let prompt := build_prompt row image_paths object_id
      match generate_catalog_text encode image_paths prompt (api object_id) with
      | Except.error e =>
        ⟨basename excel_path, object_id, "",
          "Error: Processing error: " ++ e⟩
      | Except.ok g =>
        ⟨basename excel_path, object_id,
          String.intercalate ", " (image_paths.map basename), g.text⟩

/-- Embedding of `process_excel` (main.py lines 186-241): normalize column
names, slice the row range, fail if column `t1` is missing, then emit one
Result Record per group key, up to `max_objects`.  The `Except.error` case
is the `ValueError` raised for a missing grouping column. -/
def process_excel (excel_path : String) (fs : FS) (base_folder : String)
    (columns : List String) (rows : List Row)
    (row_start_1_based row_end_1_based max_objects : Nat)
    (encode : String → Except String String) (api : String → Nat → Resp) :
    Except String (List ResultRecord) :=
  let cols := columns.map normName
  let sliced := sliceRows rows row_start_1_based row_end_1_based
  if cols.contains "t1" then
    Except.ok (((groupKeys sliced).take max_objects).map
      (processOne excel_path fs base_folder encode api sliced))
  else
    Except.error "Error: Expected column t1 not found (after normalization)!"

/-- Modelled from the spec: "appending a labeled clause per field in the
fixed order {manufacturer, material, dimensions, year}, skipping any field
equal to the missing sentinel".  Used only to compare `build_list_sentences`
against the spec's description. -/
def specFactsClauses (fields : List (String × String)) : List String :=
  (fields.filter (fun p => decide (p.2 ≠ EMPTY_CELL))).map
    (fun p => p.1 ++ p.2)

/-- Directory tree of the Image Locator example: `<base>/2019` holding the
four `AK-2019-001_*.jpg` files. -/
def fsC1 : FS :=
  [("base/2019",
    ["AK-2019-001_a.jpg", "AK-2019-001_b.jpg", "AK-2019-001_c.jpg",
      "AK-2019-001_d.jpg"])]

/-- Responses used by the C3 witness: rate-limit, rate-limit, success. -/
def respsC3 : Nat → Resp := fun n =>
  if n = 0 then Resp.httpError 429 "r1"
  else if n = 1 then Resp.httpError 429 "r2"
  else Resp.success "OK"

/-- Responses used by the C10 witness: always rate-limited. -/
def respsC10 : Nat → Resp := fun _ => Resp.httpError 429 "rl"

/-- Rows of the C2 counterexample: identifiers first seen in the order
"B", "A". -/
def rowsC2 : List Row := [⟨"B", []⟩, ⟨"A", []⟩]

/-- Filesystem of the C6 scenario: one image per year folder. -/
def fsC6 : FS :=
  [("base/2001", ["A-2001-1_a.jpg"]), ("base/2002", ["B-2002-2_a.jpg"]),
    ("base/2003", ["C-2003-3_a.jpg"])]

/-- Rows of the C6 scenario: three objects. -/
def rowsC6 : List Row :=
  [⟨"A/2001/1", []⟩, ⟨"B/2002/2", []⟩, ⟨"C/2003/3", []⟩]

/-- Image encoder of the C6 scenario: reading the second object's image
raises. -/
def encC6 : String → Except String String := fun p =>
  if p = "base/2002/B-2002-2_a.jpg" then Except.error "boom" else Except.ok p

/-- Response oracle of the C6 scenario: every request succeeds. -/
def apiC6 : String → Nat → Resp := fun _ _ => Resp.success "TEXT"

/-! Helper lemmas. -/

theorem dropWhile_dropWhile {α : Type} (p : α → Bool) (l : List α) :
    (l.dropWhile p).dropWhile p = l.dropWhile p := by
  induction l with
  | nil => rfl
  | cons a t ih =>
    by_cases h : p a
    · simp [List.dropWhile_cons, h, ih]
    · simp [List.dropWhile_cons, h]

theorem length_dropWhile_le' {α : Type} (p : α → Bool) (l : List α) :
    (l.dropWhile p).length ≤ l.length := by
  induction l with
  | nil => simp
  | cons a t ih =>
    by_cases h : p a
    · simp only [List.dropWhile_cons, h, if_true]
      exact Nat.le_trans ih (Nat.le_succ _)
    · simp [List.dropWhile_cons, h]

theorem not_head_of_dropWhile_eq_self {α : Type} {p : α → Bool} {a : α}
    {t : List α} (h : (a :: t).dropWhile p = a :: t) : p a = false := by
  by_cases hp : p a
  · exfalso
    simp only [List.dropWhile_cons, hp, if_true] at h
    have hlen := congrArg List.length h
    have hle := length_dropWhile_le' p t
    simp at hlen
    omega
  · simpa using hp

theorem dropWhile_eq_self_of_prefix {α : Type} {p : α → Bool}
    {l₁ l₂ : List α} (hpre : l₁ <+: l₂) (h : l₂.dropWhile p = l₂) :
    l₁.dropWhile p = l₁ := by
  cases l₁ with
  | nil => rfl
  | cons a t =>
    obtain ⟨r, hr⟩ := hpre
    have hcons : l₂ = a :: (t ++ r) := by rw [← hr]; simp
    have h2 : (a :: (t ++ r)).dropWhile p = a :: (t ++ r) := by
      rw [← hcons]; exact h
    have ha : p a = false := not_head_of_dropWhile_eq_self h2
    simp [List.dropWhile_cons, ha]

theorem dropWhile_suffix' {α : Type} (p : α → Bool) (l : List α) :
    l.dropWhile p <:+ l := by
  induction l with
  | nil => exact List.suffix_refl _
  | cons a t ih =>
    by_cases h : p a
    · simp only [List.dropWhile_cons, h, if_true]
      exact ih.trans (List.suffix_cons a t)
    · simp [List.dropWhile_cons, h]

theorem pyStrip_idem (s : String) : pyStrip (pyStrip s) = pyStrip s := by
  unfold pyStrip
  have hdata : (String.mk (((s.data.dropWhile pyWs).reverse.dropWhile
      pyWs).reverse)).data =
      ((s.data.dropWhile pyWs).reverse.dropWhile pyWs).reverse := rfl
  rw [hdata]
  set A := s.data.dropWhile pyWs with hA
  set C := A.reverse.dropWhile pyWs with hC
  have hApre : A.dropWhile pyWs = A := by rw [hA]; exact dropWhile_dropWhile _ _
  have hBpre : C.reverse <+: A := by
    have h1 : C <:+ A.reverse := by rw [hC]; exact dropWhile_suffix' _ _
    have h2 : C.reverse <+: A.reverse.reverse := List.reverse_prefix.mpr h1
    simpa using h2
  have h3 : C.reverse.dropWhile pyWs = C.reverse :=
    dropWhile_eq_self_of_prefix hBpre hApre
  rw [h3]
  have h4 : C.reverse.reverse = C := List.reverse_reverse C
  rw [h4]
  have h5 : C.dropWhile pyWs = C := by rw [hC]; exact dropWhile_dropWhile _ _
  rw [h5]

theorem listLeB_cons (a b : Char) (as bs : List Char) :
    listLeB (a :: as) (b :: bs) = true ↔
      a.toNat < b.toNat ∨ (a.toNat = b.toNat ∧ listLeB as bs = true) := by
  by_cases h1 : a.toNat < b.toNat
  · simp [listLeB, h1]
  · by_cases h2 : b.toNat < a.toNat
    · simp only [listLeB, if_neg h1, if_pos h2]
      constructor
      · intro hfalse; cases hfalse
      · intro hor
        rcases hor with h | ⟨he, _⟩
        · omega
        · omega
    · have he : a.toNat = b.toNat := by omega
      simp [listLeB, h1, h2, he]

theorem listLeB_total (a b : List Char) :
    listLeB a b = true ∨ listLeB b a = true := by
  induction a generalizing b with
  | nil => left; rfl
  | cons x xs ih =>
    cases b with
    | nil => right; rfl
    | cons y ys =>
      rcases Nat.lt_trichotomy x.toNat y.toNat with h | h | h
      · left; rw [listLeB_cons]; left; exact h
      · rcases ih ys with h' | h'
        · left; rw [listLeB_cons]; right; exact ⟨h, h'⟩
        · right; rw [listLeB_cons]; right; exact ⟨h.symm, h'⟩
      · right; rw [listLeB_cons]; left; exact h

theorem listLeB_trans {a b c : List Char} (hab : listLeB a b = true)
    (hbc : listLeB b c = true) : listLeB a c = true := by
  induction a generalizing b c with
  | nil => rfl
  | cons x xs ih =>
    cases b with
    | nil => simp [listLeB] at hab
    | cons y ys =>
      cases c with
      | nil => simp [listLeB] at hbc
      | cons z zs =>
        rw [listLeB_cons] at hab hbc ⊢
        rcases hab with h1 | ⟨e1, r1⟩
        · rcases hbc with h2 | ⟨e2, _⟩
          · left; omega
          · left; omega
        · rcases hbc with h2 | ⟨e2, r2⟩
          · left; omega
          · right; exact ⟨by omega, ih r1 r2⟩

theorem strLe_total (a b : String) : strLe a b = true ∨ strLe b a = true :=
  listLeB_total a.data b.data

theorem strLe_trans {a b c : String} (hab : strLe a b = true)
    (hbc : strLe b c = true) : strLe a c = true :=
  listLeB_trans hab hbc

theorem insertSorted_perm (x : String) (l : List String) :
    (insertSorted x l).Perm (x :: l) := by
  induction l with
  | nil => exact List.Perm.refl _
  | cons y ys ih =>
    by_cases h : strLe x y = true
    · simp [insertSorted, h]
    · simp only [insertSorted, if_neg h]
      exact (ih.cons y).trans (List.Perm.swap x y ys)

theorem mem_insertSorted {z x : String} {l : List String} :
    z ∈ insertSorted x l ↔ z = x ∨ z ∈ l := by
  rw [(insertSorted_perm x l).mem_iff]
  simp

theorem pairwise_insertSorted (x : String) (l : List String)
    (h : l.Pairwise (fun a b => strLe a b = true)) :
    (insertSorted x l).Pairwise (fun a b => strLe a b = true) := by
  induction l with
  | nil => simp [insertSorted]
  | cons y ys ih =>
    rw [List.pairwise_cons] at h
    obtain ⟨hy, hys⟩ := h
    by_cases hxy : strLe x y = true
    · rw [insertSorted, if_pos hxy, List.pairwise_cons]
      constructor
      · intro z hz
        rcases List.mem_cons.mp hz with rfl | hz'
        · exact hxy
        · exact strLe_trans hxy (hy z hz')
      · rw [List.pairwise_cons]; exact ⟨hy, hys⟩
    · rw [insertSorted, if_neg hxy, List.pairwise_cons]
      constructor
      · intro z hz
        rcases mem_insertSorted.mp hz with rfl | hz'
        · rcases strLe_total z y with h' | h'
          · exact absurd h' hxy
          · exact h'
        · exact hy z hz'
      · exact ih hys

theorem sortStrings_pairwise (l : List String) :
    (sortStrings l).Pairwise (fun a b => strLe a b = true) := by
  induction l with
  | nil => simp [sortStrings]
  | cons x xs ih => exact pairwise_insertSorted x (sortStrings xs) ih

theorem sortStrings_perm (l : List String) : (sortStrings l).Perm l := by
  induction l with
  | nil => exact List.Perm.refl _
  | cons x xs ih =>
    exact (insertSorted_perm x (sortStrings xs)).trans (ih.cons x)

theorem encodeImages_okEnc (ps : List String) :
    encodeImages okEnc ps = Except.ok ps := by
  induction ps with
  | nil => rfl
  | cons p ps ih => simp [encodeImages, okEnc, ih]

theorem generate_okEnc (ps : List String) (pr : String) (resps : Nat → Resp) :
    generate_catalog_text okEnc ps pr resps =
      Except.ok (genAttempts resps 0 3) := by
  simp [generate_catalog_text, encodeImages_okEnc]

theorem genAttempts_attempts_le (resps : Nat → Resp) (a n : Nat) :
    (genAttempts resps a n).attempts ≤ n := by
  induction n generalizing a with
  | zero => simp [genAttempts]
  | succ n ih =>
    rw [genAttempts]
    cases resps a with
    | success t => simp
    | httpError status msg =>
      by_cases h : status = 429
      · simp only [h, if_pos rfl]
        exact Nat.succ_le_succ (ih (a + 1))
      · simp [h]
    | connError msg => simp

theorem processOne_objectId (excel_path : String) (fs : FS)
    (base_folder : String) (encode : String → Except String String)
    (api : String → Nat → Resp) (sliced : List Row) (key : String) :
    (processOne excel_path fs base_folder encode api sliced key).objectId =
      pyStrip key := by
  rw [processOne]
  split
  · rfl
  · split
    · rfl
    · dsimp only
      split <;> rfl

/-! Claim theorems. -/

/-- C4: for all four normalized field values, `build_list_sentences`
appends one labeled clause per present field in the fixed order
manufacturer, material, dimensions, year, skips fields equal to the missing
sentinel, and joins the clauses with "; "; the Acme example yields exactly
"Hersteller: Acme; Maße: 10x20cm" and
"Manufacturer: Acme; Dimensions: 10x20cm", and four missing fields yield
empty sentences. -/
theorem C4_build_list_sentences :
    (∀ m mt d y : String,
      build_list_sentences m mt d y =
        (String.intercalate "; " (specFactsClauses
            [("Hersteller: ", m), ("Material: ", mt), ("Maße: ", d),
              ("Jahr: ", y)]),
          String.intercalate "; " (specFactsClauses
            [("Manufacturer: ", m), ("Material: ", mt), ("Dimensions: ", d),
              ("Year: ", y)]))) ∧
    build_list_sentences "Acme" EMPTY_CELL "10x20cm" EMPTY_CELL =
      ("Hersteller: Acme; Maße: 10x20cm",
        "Manufacturer: Acme; Dimensions: 10x20cm") ∧
    build_list_sentences EMPTY_CELL EMPTY_CELL EMPTY_CELL EMPTY_CELL =
      ("", "") := by
  refine ⟨?_, by decide, by decide⟩
  intro m mt d y
  by_cases h1 : m = EMPTY_CELL <;> by_cases h2 : mt = EMPTY_CELL <;>
    by_cases h3 : d = EMPTY_CELL <;> by_cases h4 : y = EMPTY_CELL <;>
    simp [build_list_sentences, specFactsClauses, h1, h2, h3, h4]

/-- C5: `safe_value` returns the missing sentinel for an absent value, a
value that is empty or whitespace-only after trimming, a value trimming to
the case-insensitive token "nan", or a value whose stringification fails;
otherwise it returns the trimmed string form, and no case raises. -/
theorem C5_safe_value_contract :
    safe_value PyVal.none = EMPTY_CELL ∧
    safe_value PyVal.unstringable = EMPTY_CELL ∧
    (∀ s : String, pyStrip s = "" →
      safe_value (PyVal.str s) = EMPTY_CELL) ∧
    (∀ s : String, pyToLower (pyStrip s) = "nan" →
      safe_value (PyVal.str s) = EMPTY_CELL) ∧
    (∀ s : String, pyStrip s ≠ "" → pyToLower (pyStrip s) ≠ "nan" →
      safe_value (PyVal.str s) = pyStrip s) := by
  refine ⟨rfl, rfl, ?_, ?_, ?_⟩
  · intro s h
    simp [safe_value, h]
  · intro s h
    simp [safe_value, h]
  · intro s h1 h2
    simp only [safe_value]
    rw [if_neg]
    intro hor
    rcases hor with h | h
    · exact h1 h
    · exact h2 h

/-- C5 witness: concrete inputs for each hypothesis-bearing case. -/
theorem C5_safe_value_contract_witness :
    safe_value (PyVal.str "   ") = EMPTY_CELL ∧
    safe_value (PyVal.str " NaN ") = EMPTY_CELL ∧
    safe_value (PyVal.str " x ") = "x" := by
  refine ⟨C5_safe_value_contract.2.2.1 "   " (by decide),
    C5_safe_value_contract.2.2.2.1 " NaN " (by decide), ?_⟩
  have h := C5_safe_value_contract.2.2.2.2 " x " (by decide) (by decide)
  rw [h]
  decide

/-- C9: `safe_value` is idempotent — normalizing an already-normalized
value (feeding the string result back in) returns it unchanged. -/
theorem C9_safe_value_idempotent (v : PyVal) :
    safe_value (PyVal.str (safe_value v)) = safe_value v := by
  cases v with
  | none => decide
  | unstringable => decide
  | str s =>
    by_cases h : pyStrip s = "" ∨ pyToLower (pyStrip s) = "nan"
    · have h1 : safe_value (PyVal.str s) = EMPTY_CELL := by
        simp only [safe_value]
        rw [if_pos h]
      rw [h1]
      decide
    · have h1 : safe_value (PyVal.str s) = pyStrip s := by
        simp only [safe_value]
        rw [if_neg h]
      rw [h1]
      simp only [safe_value]
      rw [pyStrip_idem]
      rw [if_neg h]

/-- C1 counterexample: with the identifier exactly as the claim states it,
"AK/2019-001", no slash-separated segment is exactly four digits (the
segments are "AK" and "2019-001"), so `find_images_for_object` returns the
empty list — not the three claimed paths. -/
theorem C1_counterexample :
    find_images_for_object fsC1 "base" "AK/2019-001" 3 = [] ∧
    ([] : List String) ≠
      ["base/2019/AK-2019-001_a.jpg", "base/2019/AK-2019-001_b.jpg",
        "base/2019/AK-2019-001_c.jpg"] := by decide

/-- C1 (amended): with identifier "AK/2019/001" — whose second
slash-separated segment "2019" is exactly four digits — and the directory
`base/2019` holding `AK-2019-001_a.jpg` … `AK-2019-001_d.jpg`, locating with
cap 3 returns exactly the paths of the `_a`, `_b`, `_c` files, in
lexicographic order. -/
theorem C1_image_locator_example :
    find_images_for_object fsC1 "base" "AK/2019/001" 3 =
      ["base/2019/AK-2019-001_a.jpg", "base/2019/AK-2019-001_b.jpg",
        "base/2019/AK-2019-001_c.jpg"] := by decide

/-- C7: for every base directory and identifier, if no slash-separated
segment of the identifier passes the four-digit test, or the `<base>/<year>`
directory is absent from the filesystem, `find_images_for_object` returns
the empty list (totally — the embedding raises nothing). -/
theorem C7_image_locator_empty (fs : FS) (base_folder object_id : String)
    (m : Nat) :
    ((∀ p ∈ splitChar '/' object_id.data, isYearSeg p = false) →
      find_images_for_object fs base_folder object_id m = []) ∧
    (∀ year, (splitChar '/' object_id.data).find? isYearSeg = some year →
      List.lookup (base_folder ++ "/" ++ String.mk year) fs = Option.none →
      find_images_for_object fs base_folder object_id m = []) := by
  constructor
  · intro h
    have hnone : (splitChar '/' object_id.data).find? isYearSeg =
        Option.none := by
      rw [List.find?_eq_none]
      intro p hp
      simp [h p hp]
    simp [find_images_for_object, hnone]
  · intro year hfind hlook
    simp [find_images_for_object, hfind, hlook]

/-- C7 witness: an identifier with no four-digit segment, and a year folder
missing from an empty filesystem. -/
theorem C7_image_locator_empty_witness :
    find_images_for_object [] "base" "ABC" 3 = [] ∧
    find_images_for_object [] "base" "X/2019" 3 = [] := by
  constructor
  · exact (C7_image_locator_empty [] "base" "ABC" 3).1 (by decide)
  · exact (C7_image_locator_empty [] "base" "X/2019" 3).2
      ("2019".data) (by decide) (by decide)

/-- C8: every result of `find_images_for_object` is a list of at most
`max_images` paths, all sharing one parent directory, with the filenames in
(code-point) lexicographic order; when the result is nonempty the parent is
`<base>/<year>` for the first four-digit segment of the identifier. -/
theorem C8_image_set_invariant (fs : FS) (base_folder object_id : String)
    (m : Nat) :
    ∃ (folder : String) (names : List String),
      find_images_for_object fs base_folder object_id m =
        names.map (fun f => folder ++ "/" ++ f) ∧
      names.length ≤ m ∧
      names.Pairwise (fun a b => strLe a b = true) ∧
      (names = [] ∨
        ∃ year, (splitChar '/' object_id.data).find? isYearSeg = some year ∧
          folder = base_folder ++ "/" ++ String.mk year) := by
  cases hfind : (splitChar '/' object_id.data).find? isYearSeg with
  | none =>
    refine ⟨"", [], ?_, by simp, by simp, Or.inl rfl⟩
    simp [find_images_for_object, hfind]
  | some year =>
    cases hlook : List.lookup (base_folder ++ "/" ++ String.mk year) fs with
    | none =>
      refine ⟨"", [], ?_, by simp, by simp, Or.inl rfl⟩
      simp [find_images_for_object, hfind, hlook]
    | some entries =>
      refine ⟨base_folder ++ "/" ++ String.mk year,
        (sortStrings ((entries.filter isImageExt).filter
          (fun f => (idStem object_id).data.isPrefixOf f.data))).take m,
        ?_, List.length_take_le m _, ?_, Or.inr ⟨year, rfl, rfl⟩⟩
      · simp [find_images_for_object, hfind, hlook]
      · exact (sortStrings_pairwise _).sublist (List.take_sublist m _)

/-- C3: retry policy of the Generation Client — a rate-limit (429) response
on attempt n waits 5·n and retries, at most 3 attempts happen, two
rate-limits followed by a success return the success text after waits 5 and
10, three rate-limits return the "aborted" string with exactly 3 attempts,
and any other failure (connection error or non-429 HTTP error, on the first
or a later attempt) returns an error-tagged string immediately, with no
retry and no exception. -/
theorem C3_generation_retry (image_paths : List String) (resps : Nat → Resp) :
    (∀ g, generate_catalog_text okEnc image_paths "" resps = Except.ok g →
      g.attempts ≤ 3) ∧
    (∀ m1 m2 t, resps 0 = Resp.httpError 429 m1 →
      resps 1 = Resp.httpError 429 m2 → resps 2 = Resp.success t →
      generate_catalog_text okEnc image_paths "" resps =
        Except.ok ⟨t, [5, 10], 3⟩) ∧
    (∀ m1 m2 m3, resps 0 = Resp.httpError 429 m1 →
      resps 1 = Resp.httpError 429 m2 → resps 2 = Resp.httpError 429 m3 →
      ∃ ws, generate_catalog_text okEnc image_paths "" resps =
        Except.ok ⟨"Error: Aborted after too many failed attempts", ws, 3⟩) ∧
    (∀ st msg, resps 0 = Resp.httpError st msg → st ≠ 429 →
      generate_catalog_text okEnc image_paths "" resps =
        Except.ok ⟨"Error: API error: " ++ msg, [], 1⟩) ∧
    (∀ msg, resps 0 = Resp.connError msg →
      generate_catalog_text okEnc image_paths "" resps =
        Except.ok ⟨"Error: Connection error: " ++ msg, [], 1⟩) ∧
    (∀ m1 st msg, resps 0 = Resp.httpError 429 m1 →
      resps 1 = Resp.httpError st msg → st ≠ 429 →
      generate_catalog_text okEnc image_paths "" resps =
        Except.ok ⟨"Error: API error: " ++ msg, [5], 2⟩) := by
  rw [generate_okEnc]
  refine ⟨?_, ?_, ?_, ?_, ?_, ?_⟩
  · intro g hg
    have := genAttempts_attempts_le resps 0 3
    rw [Except.ok.injEq] at hg
    rw [hg] at this
    exact this
  · intro m1 m2 t h0 h1 h2
    simp [genAttempts, h0, h1, h2]
  · intro m1 m2 m3 h0 h1 h2
    refine ⟨[5, 10, 15], ?_⟩
    simp [genAttempts, h0, h1, h2]
  · intro st msg h0 hne
    simp [genAttempts, h0, hne]
  · intro msg h0
    simp [genAttempts, h0]
  · intro m1 st msg h0 h1 hne
    simp [genAttempts, h0, h1, hne]

/-- C3 witness: two rate-limits then a success return the success text
after waits 5 and 10 and exactly 3 attempts. -/
theorem C3_generation_retry_witness :
    generate_catalog_text okEnc [] "" respsC3 = Except.ok ⟨"OK", [5, 10], 3⟩ :=
  (C3_generation_retry [] respsC3).2.1 "r1" "r2" "OK" rfl rfl rfl

/-- C10: three consecutive rate-limit responses cause waits of 5, 10 and
then a final 15 — the third sleep happens after the last failed attempt,
although no fourth attempt follows — before the "aborted" string is
returned. -/
theorem C10_final_wait (image_paths : List String) (resps : Nat → Resp)
    (m1 m2 m3 : String) (h0 : resps 0 = Resp.httpError 429 m1)
    (h1 : resps 1 = Resp.httpError 429 m2)
    (h2 : resps 2 = Resp.httpError 429 m3) :
    generate_catalog_text okEnc image_paths "" resps =
      Except.ok
        ⟨"Error: Aborted after too many failed attempts", [5, 10, 15], 3⟩ := by
  rw [generate_okEnc]
  simp [genAttempts, h0, h1, h2]

/-- C10 witness: the concrete all-429 run. -/
theorem C10_final_wait_witness :
    generate_catalog_text okEnc [] "" respsC10 =
      Except.ok
        ⟨"Error: Aborted after too many failed attempts", [5, 10, 15], 3⟩ :=
  C10_final_wait [] respsC10 "rl" "rl" "rl" rfl rfl rfl

/-- C2 counterexample: pandas `groupby` (default `sort=True`) iterates the
keys in ascending order, so the first emitted Result Record carries "A"
although the first identifier by order of first appearance is "B" — the
emitted order ["A", "B"] is not the first-seen order ["B", "A"]. -/
theorem C2_counterexample :
    process_excel "f.xls" [] "base" ["t1"] rowsC2 1 2 5 okEnc
        (fun _ _ => Resp.success "T") =
      Except.ok
        [⟨"f.xls", "A", "", "Error: No valid image found"⟩,
          ⟨"f.xls", "B", "", "Error: No valid image found"⟩] ∧
    firstSeenKeys (sliceRows rowsC2 1 2) = ["B", "A"] ∧
    (["A", "B"] : List String) ≠ ["B", "A"] := by decide

/-- C2 (amended): the Batch Orchestrator groups the sliced rows by the
grouping column's value, but emits the groups in ascending lexicographic
order of the identifiers (pandas `groupby` sorts its keys), not in order of
first appearance: the i-th emitted Result Record (before the object cap)
carries the i-th smallest distinct identifier, stripped. -/
theorem C2_group_order (excel_path : String) (fs : FS) (base_folder : String)
    (columns : List String) (rows : List Row) (a b max_objects : Nat)
    (encode : String → Except String String) (api : String → Nat → Resp)
    (hcol : (columns.map normName).contains "t1" = true) :
    ∃ res,
      process_excel excel_path fs base_folder columns rows a b max_objects
          encode api = Except.ok res ∧
      res.map ResultRecord.objectId =
        ((groupKeys (sliceRows rows a b)).take max_objects).map pyStrip ∧
      (groupKeys (sliceRows rows a b)).Pairwise
        (fun x y => strLe x y = true) ∧
      (groupKeys (sliceRows rows a b)).Perm
        (firstSeenKeys (sliceRows rows a b)) := by
  refine ⟨((groupKeys (sliceRows rows a b)).take max_objects).map
      (processOne excel_path fs base_folder encode api (sliceRows rows a b)),
    ?_, ?_, sortStrings_pairwise _, sortStrings_perm _⟩
  · simp only [process_excel, hcol, if_true]
  · rw [List.map_map]
    apply List.map_congr_left
    intro k hk
    exact processOne_objectId excel_path fs base_folder encode api
      (sliceRows rows a b) k

/-- C2 witness: instantiation at the counterexample table. -/
theorem C2_group_order_witness :
    ∃ res,
      process_excel "f.xls" [] "base" ["t1"] rowsC2 1 2 5 okEnc
          (fun _ _ => Resp.success "T") = Except.ok res ∧
      res.map ResultRecord.objectId =
        ((groupKeys (sliceRows rowsC2 1 2)).take 5).map pyStrip ∧
      (groupKeys (sliceRows rowsC2 1 2)).Pairwise
        (fun x y => strLe x y = true) ∧
      (groupKeys (sliceRows rowsC2 1 2)).Perm
        (firstSeenKeys (sliceRows rowsC2 1 2)) :=
  C2_group_order "f.xls" [] "base" ["t1"] rowsC2 1 2 5 okEnc
    (fun _ _ => Resp.success "T") (by decide)

/-- C6: an exception raised while processing one object (here: while
encoding its image file) is caught and converted into a Result Record whose
description is error-tagged, and the batch continues; in the concrete
3-object run where the 2nd object's processing raises, the output holds 3
records — the 2nd error-tagged, the 1st and 3rd with normal content. -/
theorem C6_partial_failure :
    (∀ (excel_path : String) (fs : FS) (base_folder : String)
        (encode : String → Except String String) (api : String → Nat → Resp)
        (sliced : List Row) (key : String) (first_row : Row) (e : String),
      find_images_for_object fs base_folder (pyStrip key) 3 ≠ [] →
      sliced.find? (fun r => r.t1 == key) = some first_row →
      encodeImages encode
          (find_images_for_object fs base_folder (pyStrip key) 3) =
        Except.error e →
      processOne excel_path fs base_folder encode api sliced key =
        ⟨basename excel_path, pyStrip key, "",
          "Error: Processing error: " ++ e⟩) ∧
    process_excel "f.xls" fsC6 "base" ["t1"] rowsC6 1 3 5 encC6 apiC6 =
      Except.ok
        [⟨"f.xls", "A/2001/1", "A-2001-1_a.jpg", "TEXT"⟩,
          ⟨"f.xls", "B/2002/2", "", "Error: Processing error: boom"⟩,
          ⟨"f.xls", "C/2003/3", "C-2003-3_a.jpg", "TEXT"⟩] := by
  constructor
  · intro excel_path fs base_folder encode api sliced key first_row e h1 h2 h3
    rw [processOne, if_neg h1, h2]
    dsimp only
    simp only [generate_catalog_text, h3]
  · decide

/-- C6 witness: the general component applied to the failing second object
of the concrete scenario. -/
theorem C6_partial_failure_witness :
    processOne "f.xls" fsC6 "base" encC6 apiC6 rowsC6 "B/2002/2" =
      ⟨"f.xls", "B/2002/2", "", "Error: Processing error: boom"⟩ := by
  have h := C6_partial_failure.1 "f.xls" fsC6 "base" encC6 apiC6 rowsC6
    "B/2002/2" ⟨"B/2002/2", []⟩ "boom" (by decide) (by decide) (by decide)
  rw [h]
  decide
